import Mathlib

/-!
Verification of the service-catalog admission validators and of the binding
reconciliation engine described by the repository's specification.

Part 1 embeds the `changevalidator` admission plugin
(`denyPlanChangeIfNotUpdatable.Admit`) from the source.
-/

namespace ChangeValidator

/-- A catalog service class, as read by the admission plugin: its name and
the `PlanUpdatable` attribute of its spec. -/
structure ClusterServiceClass where
  name : String
  planUpdatable : Bool
deriving Repr, DecidableEq

/-- The fields of `ServiceInstanceSpec` the plugin reads: the (optional)
resolved class reference and the three ways of specifying a plan. -/
structure ServiceInstanceSpec where
  clusterServiceClassRef : Option String
  clusterServicePlanExternalName : String
  clusterServicePlanExternalID : String
  clusterServicePlanName : String
deriving Repr, DecidableEq

/-- A service instance: namespace, name, spec. -/
structure ServiceInstance where
  ns : String
  name : String
  spec : ServiceInstanceSpec
deriving Repr, DecidableEq

/-- Modelled from the spec: `GetSpecifiedClusterServicePlan` is not in the
excerpt; the spec says a plan is referenced "by external name, external ID,
or internal identifier — exactly one resolves to a concrete plan", so the
specified plan is the first non-empty of the three reference fields. -/
def ServiceInstanceSpec.GetSpecifiedClusterServicePlan (s : ServiceInstanceSpec) : String :=
  if s.clusterServicePlanExternalName ≠ "" then s.clusterServicePlanExternalName
  else if s.clusterServicePlanExternalID ≠ "" then s.clusterServicePlanExternalID
  else s.clusterServicePlanName

/-- Outcome of a lister `Get`: the object, a not-found error, or another
error. -/
inductive ListerResult (α : Type) where
  | found : α → ListerResult α
  | notFound : ListerResult α
  | otherError : ListerResult α
deriving Repr, DecidableEq

/-- Outcome of an admission `Admit` call: `nil` (allowed), a Forbidden
error with its message, or a plain error returned unchanged (the
`return err` path for the instance lister). -/
inductive Decision where
  | allowed : Decision
  | forbidden : String → Decision
  | errorOther : Decision
deriving Repr, DecidableEq

/-- `denyPlanChangeIfNotUpdatable.Admit`. `ready` is `WaitForReady()`;
`isServiceInstancesRes` is the group/resource guard; `scLister` and
`instanceLister` are the two listers the handler holds (the instance
lister already namespaced by the instance's namespace and keyed by
namespace then name). -/
def Admit (ready : Bool) (isServiceInstancesRes : Bool)
    (scLister : String → ListerResult ClusterServiceClass)
    (instanceLister : String → String → ListerResult ServiceInstance)
    (inst : ServiceInstance) : Decision :=
  if ¬ ready then .forbidden "not yet ready to handle request"
  else if ¬ isServiceInstancesRes then .allowed
  else
    match inst.spec.clusterServiceClassRef with
    | none => .allowed
    | some refName =>
      match scLister refName with
      | .notFound => .allowed
      | .otherError => .forbidden "lister error"
      | .found sc =>
        if sc.planUpdatable then .allowed
        else if inst.spec.GetSpecifiedClusterServicePlan ≠ "" then
          match instanceLister inst.ns inst.name with
          | .found origInstance =>
            let externalPlanNameUpdated :=
              inst.spec.clusterServicePlanExternalName ≠
                origInstance.spec.clusterServicePlanExternalName
            let externalPlanIDUpdated :=
              inst.spec.clusterServicePlanExternalID ≠
                origInstance.spec.clusterServicePlanExternalID
            let k8sPlanUpdated :=
              inst.spec.clusterServicePlanName ≠
                origInstance.spec.clusterServicePlanName
            if externalPlanNameUpdated ∨ externalPlanIDUpdated ∨ k8sPlanUpdated then
              .forbidden ("The Service Class " ++ sc.name ++ " does not allow plan changes.")
            else .allowed
          | _ => .errorOther
        else .allowed

/-- Modelled from the spec: the admission collaborator gates updates before
they ever reach the reconciler, so a rejected update is not stored and no
broker Update call results from it. Returns the instance the store keeps
and whether the update proceeds toward the reconciler (and hence toward a
broker Update). -/
def gatedUpdate (ready : Bool) (isServiceInstancesRes : Bool)
    (scLister : String → ListerResult ClusterServiceClass)
    (instanceLister : String → String → ListerResult ServiceInstance)
    (stored updated : ServiceInstance) : ServiceInstance × Bool :=
  match Admit ready isServiceInstancesRes scLister instanceLister updated with
  | .allowed => (updated, true)
  | _ => (stored, false)

/-- Stored instance used in gate examples: its plan is `plan-a`. -/
def sampleOrig : ServiceInstance :=
  ⟨"test-ns", "test-instance", ⟨some "csc", "plan-a", "", ""⟩⟩

/-- Updated instance used in gate examples: it changes the plan external
name to `plan-b`. -/
def sampleUpd : ServiceInstance :=
  ⟨"test-ns", "test-instance", ⟨some "csc", "plan-b", "", ""⟩⟩

/-- Claim C1: an update to a ServiceInstance whose referenced
ClusterServiceClass has `PlanUpdatable=false`, specifying a plan (by
external name, external ID, or Kubernetes name) different from the stored
instance's plan, is rejected by the plan-change gate with a Forbidden
error, the stored instance is unchanged, and no broker Update call results
from the update. -/
theorem plan_change_gate_rejects_nonupdatable
    (scLister : String → ListerResult ClusterServiceClass)
    (instanceLister : String → String → ListerResult ServiceInstance)
    (inst orig : ServiceInstance) (sc : ClusterServiceClass) (cn : String)
    (href : inst.spec.clusterServiceClassRef = some cn)
    (hsc : scLister cn = .found sc)
    (hupd : sc.planUpdatable = false)
    (hspec : inst.spec.GetSpecifiedClusterServicePlan ≠ "")
    (horig : instanceLister inst.ns inst.name = .found orig)
    (hdiff : inst.spec.clusterServicePlanExternalName ≠ orig.spec.clusterServicePlanExternalName
      ∨ inst.spec.clusterServicePlanExternalID ≠ orig.spec.clusterServicePlanExternalID
      ∨ inst.spec.clusterServicePlanName ≠ orig.spec.clusterServicePlanName) :
    Admit true true scLister instanceLister inst
      = .forbidden ("The Service Class " ++ sc.name ++ " does not allow plan changes.")
    ∧ gatedUpdate true true scLister instanceLister orig inst = (orig, false) := by
  have hA : Admit true true scLister instanceLister inst
      = .forbidden ("The Service Class " ++ sc.name ++ " does not allow plan changes.") := by
    rcases hdiff with h | h | h <;>
      simp [Admit, href, hsc, hupd, horig, hspec, h]
  refine ⟨hA, ?_⟩
  unfold gatedUpdate
  rw [hA]

/-- Witness for C1 at a concrete input: class `csc` with
`PlanUpdatable=false`, stored plan `plan-a`, update to `plan-b`. -/
theorem plan_change_gate_rejects_nonupdatable_witness :
    Admit true true (fun _ => .found ⟨"csc", false⟩)
        (fun _ _ => .found sampleOrig) sampleUpd
      = .forbidden "The Service Class csc does not allow plan changes."
    ∧ gatedUpdate true true (fun _ => .found ⟨"csc", false⟩)
        (fun _ _ => .found sampleOrig) sampleOrig sampleUpd = (sampleOrig, false) :=
  plan_change_gate_rejects_nonupdatable
    (fun _ => .found ⟨"csc", false⟩) (fun _ _ => .found sampleOrig)
    sampleUpd sampleOrig ⟨"csc", false⟩ "csc"
    rfl rfl rfl (by decide) rfl (Or.inl (by decide))

/-- Claim C9: when the class lister reports not-found for the referenced
ClusterServiceClass, `Admit` allows the update without any updatability
check; only a non-not-found lister error yields a Forbidden rejection. -/
theorem admit_notfound_class_allows
    (scLister : String → ListerResult ClusterServiceClass)
    (instanceLister : String → String → ListerResult ServiceInstance)
    (inst : ServiceInstance) (cn : String)
    (href : inst.spec.clusterServiceClassRef = some cn) :
    (scLister cn = .notFound →
      Admit true true scLister instanceLister inst = .allowed)
    ∧ (scLister cn = .otherError →
      Admit true true scLister instanceLister inst = .forbidden "lister error") := by
  constructor <;> intro h <;> simp [Admit, href, h]

/-- Witness for C9: a stale (not-found) class cache lets a plan change on
the `sampleUpd` instance pass the gate; an other-error cache forbids it. -/
theorem admit_notfound_class_allows_witness :
    Admit true true (fun _ => .notFound) (fun _ _ => .found sampleOrig) sampleUpd = .allowed
    ∧ Admit true true (fun _ => .otherError) (fun _ _ => .found sampleOrig) sampleUpd
        = .forbidden "lister error" :=
  ⟨(admit_notfound_class_allows (fun _ => .notFound)
      (fun _ _ => .found sampleOrig) sampleUpd "csc" rfl).1 rfl,
   (admit_notfound_class_allows (fun _ => .otherError)
      (fun _ _ => .found sampleOrig) sampleUpd "csc" rfl).2 rfl⟩

end ChangeValidator

/-!
Part 2 embeds the `authsarcheck` admission plugin (`sarcheck.Admit`) from
the source: it enforces that the creator of a broker has access to the
broker's auth-credential secret, via a SubjectAccessReview.
-/

namespace AuthSarCheck

/-- A namespaced object reference (the `SecretRef` of a
ClusterServiceBroker's auth config). -/
structure ObjectReference where
  ns : String
  name : String
deriving Repr, DecidableEq

/-- A local (same-namespace) object reference (the `SecretRef` of a
ServiceBroker's auth config). -/
structure LocalObjectReference where
  name : String
deriving Repr, DecidableEq

/-- Basic-auth config of a ClusterServiceBroker: an optional secret
reference. -/
structure ClusterBasicAuthConfig where
  secretRef : Option ObjectReference
deriving Repr, DecidableEq

/-- Bearer-token config of a ClusterServiceBroker: an optional secret
reference. -/
structure ClusterBearerTokenAuthConfig where
  secretRef : Option ObjectReference
deriving Repr, DecidableEq

/-- AuthInfo of a ClusterServiceBroker: optional Basic and Bearer configs. -/
structure ClusterServiceBrokerAuthInfo where
  basic : Option ClusterBasicAuthConfig
  bearer : Option ClusterBearerTokenAuthConfig
deriving Repr, DecidableEq

/-- A cluster-scoped broker: name and optional auth info. -/
structure ClusterServiceBroker where
  name : String
  authInfo : Option ClusterServiceBrokerAuthInfo
deriving Repr, DecidableEq

/-- Basic-auth config of a namespaced ServiceBroker. -/
structure BasicAuthConfig where
  secretRef : Option LocalObjectReference
deriving Repr, DecidableEq

/-- Bearer-token config of a namespaced ServiceBroker. -/
structure BearerTokenAuthConfig where
  secretRef : Option LocalObjectReference
deriving Repr, DecidableEq

/-- AuthInfo of a namespaced ServiceBroker. -/
structure ServiceBrokerAuthInfo where
  basic : Option BasicAuthConfig
  bearer : Option BearerTokenAuthConfig
deriving Repr, DecidableEq

/-- A namespaced broker: namespace, name and optional auth info. -/
structure ServiceBroker where
  ns : String
  name : String
  authInfo : Option ServiceBrokerAuthInfo
deriving Repr, DecidableEq

/-- The admitted object, after the group/resource dispatch in `Admit`:
a cluster broker, a namespaced broker, or some other resource of the
service-catalog group. -/
inductive BrokerResource where
  | clusterServiceBroker : ClusterServiceBroker → BrokerResource
  | serviceBroker : ServiceBroker → BrokerResource
  | otherResource : BrokerResource
deriving Repr, DecidableEq

/-- One SubjectAccessReview request as built by `Admit`: namespace, verb,
resource and object name of the access being reviewed. -/
structure SARQuery where
  ns : String
  verb : String
  resource : String
  name : String
deriving Repr, DecidableEq

/-- Admission outcome of `sarcheck.Admit`. -/
inductive Decision where
  | allowed : Decision
  | forbidden : Decision
deriving Repr, DecidableEq

/-- `sarcheck.Admit`: `ready` is `WaitForReady()`; `sarAllowed` is the
authorization backend answering each SubjectAccessReview. Returns the
decision together with the list of SubjectAccessReviews issued, in order.
The namespace/secret-name derivation mirrors the source: for a
ClusterServiceBroker the Basic config's secret reference is used whenever
Basic is present (Bearer is consulted only when Basic is absent) and the
namespace comes from the reference; for a ServiceBroker the namespace is
the broker's own namespace; when no namespace or no name is derived, the
request is admitted with no review. -/
def Admit (ready : Bool) (sarAllowed : SARQuery → Bool)
    (res : BrokerResource) : Decision × List SARQuery :=
  if ¬ ready then (.forbidden, [])
  else
    let derived : String × String :=
      match res with
      | .clusterServiceBroker b =>
        match b.authInfo with
        | none => ("", "")
        | some ai =>
          let secretRef : Option ObjectReference :=
            match ai.basic with
            | some basic => basic.secretRef
            | none =>
              match ai.bearer with
              | some bearer => bearer.secretRef
              | none => none
          match secretRef with
          | none => ("", "")
          | some ref => (ref.ns, ref.name)
      | .serviceBroker b =>
        match b.authInfo with
        | none => ("", "")
        | some ai =>
          let secretRef : Option LocalObjectReference :=
            match ai.basic with
            | some basic => basic.secretRef
            | none =>
              match ai.bearer with
              | some bearer => bearer.secretRef
              | none => none
          match secretRef with
          | none => ("", "")
          | some ref => (b.ns, ref.name)
      | .otherResource => ("", "")
    if derived.1 = "" ∨ derived.2 = "" then (.allowed, [])
    else
      let sar : SARQuery := ⟨derived.1, "get", "secrets", derived.2⟩
      if sarAllowed sar then (.allowed, [sar]) else (.forbidden, [sar])

/-- The secret reference the amended claim assigns to a cluster broker's
AuthInfo: Basic's reference whenever Basic auth is present — even when
that reference is absent and Bearer carries one — otherwise Bearer's. -/
def claimClusterSecretRef (ai : ClusterServiceBrokerAuthInfo) : Option ObjectReference :=
  match ai.basic with
  | some basic => basic.secretRef
  | none =>
    match ai.bearer with
    | some bearer => bearer.secretRef
    | none => none

/-- The secret reference the amended claim assigns to a namespaced
broker's AuthInfo (same Basic-first selection). -/
def claimLocalSecretRef (ai : ServiceBrokerAuthInfo) : Option LocalObjectReference :=
  match ai.basic with
  | some basic => basic.secretRef
  | none =>
    match ai.bearer with
    | some bearer => bearer.secretRef
    | none => none

/-- The (namespace, secret name) pair the amended claim derives for a
resource: from the selected reference, with a ClusterServiceBroker
contributing the reference's own namespace and a ServiceBroker
contributing the broker's namespace. -/
def claimDerived (res : BrokerResource) : Option (String × String) :=
  match res with
  | .clusterServiceBroker b =>
    (b.authInfo.bind claimClusterSecretRef).map fun r => (r.ns, r.name)
  | .serviceBroker b =>
    (b.authInfo.bind claimLocalSecretRef).map fun r => (b.ns, r.name)
  | .otherResource => none

/-- The behaviour the amended claim describes: no review and admission
when no (namespace, name) pair is derived or either component is empty;
otherwise exactly one review of verb `get` on the secret, Forbidden
precisely when it is denied. -/
def AdmitSpec (sarAllowed : SARQuery → Bool) (res : BrokerResource) :
    Decision × List SARQuery :=
  match claimDerived res with
  | none => (.allowed, [])
  | some (n, s) =>
    if n = "" ∨ s = "" then (.allowed, [])
    else
      let sar : SARQuery := ⟨n, "get", "secrets", s⟩
      if sarAllowed sar then (.allowed, [sar]) else (.forbidden, [sar])

/-- The source `Admit` agrees with the amended claim's description on
every resource. -/
theorem Admit_eq_AdmitSpec (f : SARQuery → Bool) (res : BrokerResource) :
    Admit true f res = AdmitSpec f res := by
  cases res with
  | otherResource => simp [Admit, AdmitSpec, claimDerived]
  | clusterServiceBroker b =>
    obtain ⟨bn, ai⟩ := b
    cases ai with
    | none => simp [Admit, AdmitSpec, claimDerived]
    | some ai =>
      obtain ⟨basic, bearer⟩ := ai
      cases basic with
      | some cfg =>
        cases h : cfg.secretRef <;>
          simp [Admit, AdmitSpec, claimDerived, claimClusterSecretRef, h]
      | none =>
        cases bearer with
        | none => simp [Admit, AdmitSpec, claimDerived, claimClusterSecretRef]
        | some cfg =>
          cases h : cfg.secretRef <;>
            simp [Admit, AdmitSpec, claimDerived, claimClusterSecretRef, h]
  | serviceBroker b =>
    obtain ⟨bns, bn, ai⟩ := b
    cases ai with
    | none => simp [Admit, AdmitSpec, claimDerived]
    | some ai =>
      obtain ⟨basic, bearer⟩ := ai
      cases basic with
      | some cfg =>
        cases h : cfg.secretRef <;>
          simp [Admit, AdmitSpec, claimDerived, claimLocalSecretRef, h]
      | none =>
        cases bearer with
        | none => simp [Admit, AdmitSpec, claimDerived, claimLocalSecretRef]
        | some cfg =>
          cases h : cfg.secretRef <;>
            simp [Admit, AdmitSpec, claimDerived, claimLocalSecretRef, h]

/-- A cluster broker whose Basic auth is present without a secret
reference while Bearer auth carries one: the Basic branch shadows the
Bearer reference in the source. -/
def bearerShadowedBroker : ClusterServiceBroker :=
  ⟨"test-broker", some ⟨some ⟨none⟩, some ⟨some ⟨"creds-ns", "creds-secret"⟩⟩⟩⟩

/-- Counterexample to claim C10 as stated: for `bearerShadowedBroker` the
AuthInfo is non-nil, Bearer auth carries a secret reference with non-empty
namespace and name, the review backend denies everything — the claim as
stated predicts one SubjectAccessReview and a Forbidden result — yet the
source admits the broker and issues no review at all. -/
theorem sarcheck_bearer_shadowed_counterexample :
    bearerShadowedBroker.authInfo ≠ none
    ∧ ((bearerShadowedBroker.authInfo.bind fun ai => ai.bearer).bind
        fun cfg => cfg.secretRef) = some ⟨"creds-ns", "creds-secret"⟩
    ∧ Admit true (fun _ => false) (.clusterServiceBroker bearerShadowedBroker)
        = (.allowed, []) := by
  refine ⟨by decide, rfl, by decide⟩

/-- Claim C10 (amended): the broker-credential access check admits with no
SubjectAccessReview whenever no (namespace, name) pair is derived (AuthInfo
nil, or the selected secret reference — Basic's whenever Basic is present,
else Bearer's — is nil) or the derived namespace or name is empty; it
issues exactly one review otherwise, for verb `get` on the referenced
secret — the secretRef's namespace for a ClusterServiceBroker, the
broker's own namespace for a ServiceBroker — and returns Forbidden
precisely when that review is not allowed. -/
theorem sarcheck_admit_amended (f : SARQuery → Bool) (res : BrokerResource) :
    (claimDerived res = none → Admit true f res = (.allowed, []))
    ∧ (∀ n s, claimDerived res = some (n, s) → (n = "" ∨ s = "") →
        Admit true f res = (.allowed, []))
    ∧ (∀ n s, claimDerived res = some (n, s) → n ≠ "" → s ≠ "" →
        (Admit true f res).2 = [⟨n, "get", "secrets", s⟩]
        ∧ ((Admit true f res).1 = .forbidden ↔ f ⟨n, "get", "secrets", s⟩ = false)) := by
  have he := Admit_eq_AdmitSpec f res
  refine ⟨fun h => ?_, fun n s h hempty => ?_, fun n s h hn hs => ?_⟩
  · rw [he]; simp [AdmitSpec, h]
  · rw [he]; simp only [AdmitSpec, h]; rw [if_pos hempty]
  · rw [he]; simp only [AdmitSpec, h]
    rw [if_neg (by tauto)]
    cases hf : f ⟨n, "get", "secrets", s⟩ <;> simp [hf]

/-- Witness for the amended C10: a namespaced broker with Bearer-only auth
referencing secret `sec1` in broker namespace `ns1`, a denying backend —
exactly one `get` review on `ns1/sec1`, and the result is Forbidden. -/
theorem sarcheck_admit_amended_witness :
    (Admit true (fun _ => false)
        (.serviceBroker ⟨"ns1", "b", some ⟨none, some ⟨some ⟨"sec1"⟩⟩⟩⟩)).2
      = [⟨"ns1", "get", "secrets", "sec1"⟩]
    ∧ ((Admit true (fun _ => false)
        (.serviceBroker ⟨"ns1", "b", some ⟨none, some ⟨some ⟨"sec1"⟩⟩⟩⟩)).1 = .forbidden
      ↔ (fun _ => false) (⟨"ns1", "get", "secrets", "sec1"⟩ : SARQuery) = false) :=
  (sarcheck_admit_amended (fun _ => false)
      (.serviceBroker ⟨"ns1", "b", some ⟨none, some ⟨some ⟨"sec1"⟩⟩⟩⟩)).2.2
    "ns1" "sec1" rfl (by decide) (by decide)

end AuthSarCheck

/-!
Part 3 models the binding reconciliation core. The controller code itself
(parameter resolver, secret-transform pipeline, binding state machine,
unbind retry loop) is not part of the excerpt — only its integration tests
are — so these definitions are modelled from the spec (§4.2–§4.4, §7) and
checked against the expectations pinned by the tests in the excerpt.
-/

namespace Controller

/-- Modelled from the spec: a JSON-compatible parameter value (the test
vectors only exercise strings and nested objects). -/
inductive JSON where
  | str : String → JSON
  | obj : List (String × JSON) → JSON

/-- Left brace character. -/
def lbrace : Char := Char.ofNat 123

/-- Right brace character. -/
def rbrace : Char := Char.ofNat 125

/-- Double-quote character. -/
def dquote : Char := Char.ofNat 34

/-- Colon character. -/
def colonChar : Char := Char.ofNat 58

/-- Comma character. -/
def commaChar : Char := Char.ofNat 44

/-- Dot character. -/
def dotChar : Char := Char.ofNat 46

/-- Reads the characters of a JSON string literal up to its closing quote;
returns the literal's characters and the rest of the input. -/
def takeStringChars : List Char → Option (List Char × List Char)
  | [] => none
  | c :: rest =>
    if c = dquote then some ([], rest)
    else
      match takeStringChars rest with
      | some (s, rem) => some (c :: s, rem)
      | none => none

mutual

/-- Modelled from the spec: recursive-descent JSON value parser (strings
and objects, no whitespace — the forms the repository's test vectors use),
with a fuel bound for termination. -/
def parseValue : Nat → List Char → Option (JSON × List Char)
  | 0, _ => none
  | _ + 1, [] => none
  | fuel + 1, c :: rest =>
    if c = dquote then
      (takeStringChars rest).map fun p => (JSON.str (String.mk p.1), p.2)
    else if c = lbrace then
      match rest with
      | [] => none
      | c2 :: rest2 =>
        if c2 = rbrace then some (JSON.obj [], rest2)
        else
          (parseMembers fuel (c2 :: rest2)).map fun p => (JSON.obj p.1, p.2)
    else none

/-- Parses the members of a JSON object after its opening brace, up to and
including the closing brace. -/
def parseMembers : Nat → List Char → Option (List (String × JSON) × List Char)
  | 0, _ => none
  | _ + 1, [] => none
  | fuel + 1, c :: rest =>
    if c = dquote then
      match takeStringChars rest with
      | none => none
      | some (k, rem) =>
        match rem with
        | [] => none
        | c2 :: rem2 =>
          if c2 = colonChar then
            match parseValue fuel rem2 with
            | none => none
            | some (v, rem3) =>
              match rem3 with
              | [] => none
              | c3 :: rem4 =>
                if c3 = commaChar then
                  (parseMembers fuel rem4).map fun p =>
                    ((String.mk k, v) :: p.1, p.2)
                else if c3 = rbrace then some ([(String.mk k, v)], rem4)
                else none
          else none
    else none

end

/-- Modelled from the spec: parse a secret value "as JSON", requiring a
top-level object exactly as unmarshalling into a string-keyed map does;
anything else is a parse failure. -/
def parseJSONObject (s : String) : Option (List (String × JSON)) :=
  match parseValue (s.length + 2) s.toList with
  | some (JSON.obj fields, []) => some fields
  | _ => none

/-- First-match association lookup (string-keyed map as a list). -/
def lookupStr {α : Type} : List (String × α) → String → Option α
  | [], _ => none
  | (k2, v) :: rest, k => if k2 = k then some v else lookupStr rest k

/-- Insert-or-overwrite of one key in a string-keyed map. -/
def setKey {α : Type} (m : List (String × α)) (k : String) (v : α) :
    List (String × α) :=
  m.filter (fun p => p.1 != k) ++ [(k, v)]

/-- Merge the entries of `add` into `base` in order, each overwriting any
existing binding of its key (so on collision the later entry wins). -/
def mergeObj {α : Type} (base add : List (String × α)) : List (String × α) :=
  add.foldl (fun acc p => setKey acc p.1 p.2) base

/-- What `setKey` does to lookups: the set key now maps to the new value,
every other key is untouched. -/
theorem lookupStr_setKey {α : Type} (m : List (String × α)) (k k' : String) (v : α) :
    lookupStr (setKey m k v) k' = if k = k' then some v else lookupStr m k' := by
  induction m with
  | nil => simp [setKey, lookupStr]
  | cons p rest ih =>
    obtain ⟨k2, v2⟩ := p
    by_cases h1 : k2 = k <;> by_cases h2 : k2 = k' <;> by_cases h3 : k = k' <;>
      simp_all [setKey, lookupStr]

/-- Secret data: a key to raw-bytes map (bytes modelled as strings). -/
abbrev SecretData := List (String × String)

/-- A `ParametersFrom` source: the name of a secret and the key within it. -/
structure SecretKeyReference where
  name : String
  key : String
deriving Repr, DecidableEq

/-- Modelled from the spec: the distinct parameter-resolution errors
("Missing secret, missing key, or empty secret data are each distinct
resolution errors", plus malformed JSON). -/
inductive ParamError where
  | missingSecret : String → ParamError
  | missingKey : String → String → ParamError
  | emptySecretData : String → ParamError
  | malformedJSON : String → String → ParamError
deriving Repr, DecidableEq

/-- Modelled from the spec: resolve one secret-key reference — fetch the
named secret, require non-empty data, extract the named key, parse its
value as a JSON object. -/
def fetchSecretKeyParams (secrets : String → Option SecretData)
    (r : SecretKeyReference) : Except ParamError (List (String × JSON)) :=
  match secrets r.name with
  | none => .error (.missingSecret r.name)
  | some data =>
    if data.isEmpty then .error (.emptySecretData r.name)
    else
      match lookupStr data r.key with
      | none => .error (.missingKey r.name r.key)
      | some raw =>
        match parseJSONObject raw with
        | none => .error (.malformedJSON r.name r.key)
        | some fields => .ok fields

/-- Modelled from the spec: fold the references in order into the working
bag, merging each parsed object's top-level keys with later entries
overwriting earlier; any reference failure fails the whole resolution. -/
def resolveFrom (secrets : String → Option SecretData)
    (bag : List (String × JSON)) :
    List SecretKeyReference → Except ParamError (List (String × JSON))
  | [] => .ok bag
  | r :: rs =>
    match fetchSecretKeyParams secrets r with
    | .error e => .error e
    | .ok fields => resolveFrom secrets (mergeObj bag fields) rs

/-- Modelled from the spec: parameter resolution starts from the inline
object (or empty) and processes the secret-key references in order. -/
def resolveParameters (secrets : String → Option SecretData)
    (params : Option (List (String × JSON)))
    (paramsFrom : List SecretKeyReference) :
    Except ParamError (List (String × JSON)) :=
  resolveFrom secrets (params.getD []) paramsFrom

/-- Keys not bound by the merged-in object are unchanged by `mergeObj`. -/
theorem lookupStr_mergeObj_of_not_mem {α : Type} (base add : List (String × α))
    (k : String) (h : ∀ p ∈ add, p.1 ≠ k) :
    lookupStr (mergeObj base add) k = lookupStr base k := by
  induction add generalizing base with
  | nil => rfl
  | cons p rest ih =>
    have hp : p.1 ≠ k := h p (List.mem_cons_self p rest)
    have hrest : ∀ q ∈ rest, q.1 ≠ k := fun q hq => h q (List.mem_cons_of_mem p hq)
    calc lookupStr (mergeObj (setKey base p.1 p.2) rest) k
        = lookupStr (setKey base p.1 p.2) k := ih (setKey base p.1 p.2) hrest
      _ = lookupStr base k := by rw [lookupStr_setKey]; exact if_neg hp

/-- Status of a Condition: True, False or Unknown. -/
inductive ConditionStatus where
  | condTrue : ConditionStatus
  | condFalse : ConditionStatus
  | condUnknown : ConditionStatus
deriving Repr, DecidableEq

/-- What the binding state machine reads about the referenced instance:
whether it is Ready, and whether its resolved class/plan is bindable. -/
structure InstanceInfo where
  ready : Bool
  bindable : Bool
deriving Repr, DecidableEq

/-- The binding-spec fields driving one bind attempt: the instance
reference, inline parameters and the ordered `ParametersFrom` list. -/
structure BindingSpec where
  instanceRef : String
  parameters : Option (List (String × JSON))
  parametersFrom : List SecretKeyReference

/-- The cluster state one reconciliation pass observes: instances by name
and secrets by name. -/
structure BindEnv where
  instances : String → Option InstanceInfo
  secrets : String → Option SecretData

/-- Outcome of one reconciliation pass over a freshly created binding:
the Ready condition written (status and reason), whether a timed requeue
is scheduled, whether the failure is terminal for this generation (only a
spec edit retries it), and the parameters of the broker Bind call if one
was issued. -/
structure ReconcileResult where
  ready : ConditionStatus
  reason : String
  requeue : Bool
  terminal : Bool
  bindCall : Option (List (String × JSON))

/-- Modelled from the spec (§4.2): one reconciliation pass for a binding
being created. Preconditions before issuing Bind: the referenced instance
exists (else Ready=False, requeued) and is Ready (else Ready=False,
requeued); its class/plan is bindable (else Ready=False, terminal);
parameter resolution runs before Bind and its failure is terminal with
Reason=ErrorWithParameters; otherwise Bind is issued with the resolved
bag. The nonexistent-instance reason string is the one the excerpt's
integration test pins. -/
def reconcileBindingCreate (env : BindEnv) (b : BindingSpec) : ReconcileResult :=
  match env.instances b.instanceRef with
  | none =>
    ⟨.condFalse, "ReferencesNonexistentInstance", true, false, none⟩
  | some inst =>
    if ¬ inst.ready then
      ⟨.condFalse, "ErrorInstanceNotReady", true, false, none⟩
    else if ¬ inst.bindable then
      ⟨.condFalse, "ErrorNonbindableServiceClass", false, true, none⟩
    else
      match resolveParameters env.secrets b.parameters b.parametersFrom with
      | .error _ => ⟨.condFalse, "ErrorWithParameters", false, true, none⟩
      | .ok bag => ⟨.condTrue, "", false, false, some bag⟩

/-- A reference to another secret (for `AddKeysFrom`). -/
structure ObjectReference where
  ns : String
  name : String
deriving Repr, DecidableEq

/-- The `AddKey` transform: a key plus exactly one of a literal byte
value, a literal string value, or a JSONPath expression evaluated against
the original broker credential document. -/
structure AddKeyTransform where
  key : String
  value : Option String
  stringValue : Option String
  jsonPathExpression : Option String
deriving Repr, DecidableEq

/-- The `RenameKey` transform. -/
structure RenameKeyTransform where
  fromKey : String
  toKey : String
deriving Repr, DecidableEq

/-- The `RemoveKey` transform. -/
structure RemoveKeyTransform where
  key : String
deriving Repr, DecidableEq

/-- The `AddKeysFrom` transform: an optional reference to another secret
whose keys are merged in. -/
structure AddKeysFromTransform where
  secretRef : Option ObjectReference
deriving Repr, DecidableEq

/-- One secret transform (exactly one of the four kinds). -/
inductive SecretTransform where
  | addKey : AddKeyTransform → SecretTransform
  | renameKey : RenameKeyTransform → SecretTransform
  | removeKey : RemoveKeyTransform → SecretTransform
  | addKeysFrom : AddKeysFromTransform → SecretTransform
deriving Repr, DecidableEq

/-- Delete a key from a payload (no-op when absent). -/
def removeKeyFn (m : SecretData) (k : String) : SecretData :=
  m.filter (fun p => p.1 != k)

/-- Modelled from the spec: evaluate the `\x7b.key\x7d` JSONPath form the
repository's tests use, against the original broker credential document. -/
def evalJSONPath (creds : SecretData) (expr : String) : Option String :=
  match expr.toList with
  | c :: c2 :: rest =>
    if c = lbrace ∧ c2 = dotChar then
      match rest.getLast? with
      | some last =>
        if last = rbrace then lookupStr creds (String.mk rest.dropLast)
        else none
      | none => none
    else none
  | _ => none

/-- Modelled from the spec (§4.4): apply one transform to the working
payload `p`. `creds` is the original broker credential document (the
JSONPath variant reads it, not the working payload); `secrets` fetches
other secrets for `AddKeysFrom`, whose fetch failure fails the whole
pipeline (`none`); every other step is individually best-effort. -/
def applyTransform (secrets : String → Option SecretData) (creds : SecretData)
    (p : SecretData) : SecretTransform → Option SecretData
  | .addKey a =>
    match a.value with
    | some v => some (setKey p a.key v)
    | none =>
      match a.stringValue with
      | some s => some (setKey p a.key s)
      | none =>
        match a.jsonPathExpression with
        | some expr =>
          match evalJSONPath creds expr with
          | some v => some (setKey p a.key v)
          | none => some p
        | none => some p
  | .renameKey r =>
    match lookupStr p r.fromKey with
    | some v => some (removeKeyFn (setKey p r.toKey v) r.fromKey)
    | none => some p
  | .removeKey r => some (removeKeyFn p r.key)
  | .addKeysFrom a =>
    match a.secretRef with
    | none => some p
    | some ref =>
      match secrets ref.name with
      | none => none
      | some other => some (mergeObj p other)

/-- Modelled from the spec: apply the transform list strictly in order,
each mutation visible to the subsequent transforms. -/
def applyTransforms (secrets : String → Option SecretData) (creds : SecretData)
    (ts : List SecretTransform) (p : SecretData) : Option SecretData :=
  match ts with
  | [] => some p
  | t :: rest =>
    match applyTransform secrets creds p t with
    | none => none
    | some p2 => applyTransforms secrets creds rest p2

/-- Broker responses to an Unbind call: synchronous success, asynchronous
acceptance, or an HTTP 500 error. -/
inductive UnbindResp where
  | ok : UnbindResp
  | okAsync : UnbindResp
  | err500 : UnbindResp
deriving Repr, DecidableEq

/-- Poll responses for an in-flight asynchronous operation. -/
inductive PollResp where
  | succeeded : PollResp
  | failed : PollResp
  | inProgress : PollResp
deriving Repr, DecidableEq

/-- State of a binding being deleted, tracking how many Unbind calls have
been issued so far. `failedTerminal` is the terminal-failure state that
Provision/Bind poll failures reach; the unbind path must never enter it. -/
inductive UnbindState where
  | unbinding : Nat → UnbindState
  | pollingUnbind : Nat → UnbindState
  | removed : Nat → UnbindState
  | failedTerminal : Nat → UnbindState
deriving Repr, DecidableEq

/-- Modelled from the spec (§4.2, §7e): one scheduler-driven step of the
unbind path. `broker k` is the broker's answer to the (k+1)-th Unbind
call; `poll k` is the poll answer while k calls have been issued. An HTTP
500 is retried with backoff (never terminal); a poll answer of `failed`
re-issues Unbind rather than surfacing a terminal failure; Removed is
absorbing. -/
def unbindStep (broker : Nat → UnbindResp) (poll : Nat → PollResp) :
    UnbindState → UnbindState
  | .unbinding k =>
    match broker k with
    | .ok => .removed (k + 1)
    | .okAsync => .pollingUnbind (k + 1)
    | .err500 => .unbinding (k + 1)
  | .pollingUnbind k =>
    match poll k with
    | .succeeded => .removed k
    | .inProgress => .pollingUnbind k
    | .failed => .unbinding k
  | .removed k => .removed k
  | .failedTerminal k => .failedTerminal k

/-- Iterate the unbind step `n` times. -/
def unbindRun (broker : Nat → UnbindResp) (poll : Nat → PollResp) :
    Nat → UnbindState → UnbindState
  | 0, s => s
  | n + 1, s => unbindRun broker poll n (unbindStep broker poll s)

/-- Once Removed, every further step stays Removed (with the same call
count). -/
theorem unbindRun_removed (broker : Nat → UnbindResp) (poll : Nat → PollResp)
    (n k : Nat) : unbindRun broker poll n (.removed k) = .removed k := by
  induction n with
  | zero => rfl
  | succ n ih => simpa [unbindRun, unbindStep] using ih

/-- Claim C7: a binding whose referenced Instance resolves to a
non-bindable class/plan gets Ready=False with
Reason=ErrorNonbindableServiceClass, the broker Bind call is never issued,
and the failure is terminal — no timed requeue. -/
theorem nonbindable_class_terminal
    (env : BindEnv) (b : BindingSpec) (inst : InstanceInfo)
    (hinst : env.instances b.instanceRef = some inst)
    (hready : inst.ready = true) (hbind : inst.bindable = false) :
    reconcileBindingCreate env b
      = ⟨.condFalse, "ErrorNonbindableServiceClass", false, true, none⟩ := by
  simp [reconcileBindingCreate, hinst, hready, hbind]

/-- Witness for C7: a ready instance on a non-bindable plan. -/
theorem nonbindable_class_terminal_witness :
    reconcileBindingCreate ⟨fun _ => some ⟨true, false⟩, fun _ => none⟩
        ⟨"test-instance", none, []⟩
      = ⟨.condFalse, "ErrorNonbindableServiceClass", false, true, none⟩ :=
  nonbindable_class_terminal ⟨fun _ => some ⟨true, false⟩, fun _ => none⟩
    ⟨"test-instance", none, []⟩ ⟨true, false⟩ rfl rfl rfl

/-- Counterexample to claim C8 as stated: when the referenced instance
does not exist, the Ready condition's reason is the string
`ReferencesNonexistentInstance` pinned by the excerpt's integration test,
not `ErrorReferencesNonexistentInstance` as the claim says. -/
theorem nonexistent_instance_reason_counterexample :
    (reconcileBindingCreate ⟨fun _ => none, fun _ => none⟩
        ⟨"nothereinstance", none, []⟩).reason = "ReferencesNonexistentInstance"
    ∧ (reconcileBindingCreate ⟨fun _ => none, fun _ => none⟩
        ⟨"nothereinstance", none, []⟩).reason ≠ "ErrorReferencesNonexistentInstance" :=
  ⟨rfl, by decide⟩

/-- Claim C8 (amended): before issuing Bind the binding state machine
checks the referenced Instance: if it does not exist, Ready=False with
Reason=ReferencesNonexistentInstance and the binding is requeued; if it
exists but is not Ready, Ready=False with Reason=ErrorInstanceNotReady and
the binding is requeued; in both cases no broker Bind call is made. -/
theorem binding_instance_preconditions (env : BindEnv) (b : BindingSpec) :
    (env.instances b.instanceRef = none →
      reconcileBindingCreate env b
        = ⟨.condFalse, "ReferencesNonexistentInstance", true, false, none⟩)
    ∧ (∀ inst : InstanceInfo, env.instances b.instanceRef = some inst →
        inst.ready = false →
        reconcileBindingCreate env b
          = ⟨.condFalse, "ErrorInstanceNotReady", true, false, none⟩) := by
  constructor
  · intro h; simp [reconcileBindingCreate, h]
  · intro inst h hr; simp [reconcileBindingCreate, h, hr]

/-- Witness for the amended C8: a missing instance and a not-ready
instance, each yielding the documented requeued condition and no Bind. -/
theorem binding_instance_preconditions_witness :
    reconcileBindingCreate ⟨fun _ => none, fun _ => none⟩ ⟨"nothereinstance", none, []⟩
      = ⟨.condFalse, "ReferencesNonexistentInstance", true, false, none⟩
    ∧ reconcileBindingCreate ⟨fun _ => some ⟨false, true⟩, fun _ => none⟩
        ⟨"test-instance", none, []⟩
      = ⟨.condFalse, "ErrorInstanceNotReady", true, false, none⟩ :=
  ⟨(binding_instance_preconditions ⟨fun _ => none, fun _ => none⟩
      ⟨"nothereinstance", none, []⟩).1 rfl,
   (binding_instance_preconditions ⟨fun _ => some ⟨false, true⟩, fun _ => none⟩
      ⟨"test-instance", none, []⟩).2 ⟨false, true⟩ rfl rfl⟩

/-- The JSON document held by the test secret `secret-name` under key
`secret-key`. -/
def paramsDoc : String := "\x7b\"A\":\"B\",\"C\":\x7b\"D\":\"E\",\"F\":\"G\"\x7d\x7d"

/-- The secret store of the parameter tests: one secret, one key, holding
`paramsDoc`. -/
def bindSecrets : String → Option SecretData :=
  fun n => if n = "secret-name" then some [("secret-key", paramsDoc)] else none

/-- The inline parameter object of the `plain and secret params` test. -/
def inlineParams : List (String × JSON) :=
  [("Name", .str "test-param"),
   ("Args", .obj [("first", .str "first-arg"), ("second", .str "second-arg")])]

/-- The merged parameter bag the test expects the broker Bind request to
carry. -/
def mergedParams : List (String × JSON) :=
  [("Name", .str "test-param"),
   ("Args", .obj [("first", .str "first-arg"), ("second", .str "second-arg")]),
   ("A", .str "B"),
   ("C", .obj [("D", .str "E"), ("F", .str "G")])]

/-- Claim C3: parameter resolution starts from the inline object (or
empty); each reference in order fetches the secret, extracts the key,
parses it as JSON and merges the top-level keys with last-wins overwrite;
any parse/fetch failure fails the whole resolution with no partial bag;
and the resulting bag is exactly what the broker Bind request carries.
The last conjunct checks the excerpt's `plain and secret params` vector. -/
theorem parameter_resolution (secrets : String → Option SecretData) :
    (∀ params, resolveParameters secrets params [] = .ok (params.getD []))
    ∧ (∀ bag r rs fields, fetchSecretKeyParams secrets r = .ok fields →
        resolveFrom secrets bag (r :: rs)
          = resolveFrom secrets (mergeObj bag fields) rs)
    ∧ (∀ bag r rs e, fetchSecretKeyParams secrets r = .error e →
        resolveFrom secrets bag (r :: rs) = .error e)
    ∧ (∀ (base : List (String × JSON)) k v k',
        lookupStr (setKey base k v) k' = if k = k' then some v else lookupStr base k')
    ∧ (∀ (base add : List (String × JSON)) k, (∀ q ∈ add, q.1 ≠ k) →
        lookupStr (mergeObj base add) k = lookupStr base k)
    ∧ (∀ (env : BindEnv) (b : BindingSpec) (inst : InstanceInfo) bag,
        env.instances b.instanceRef = some inst → inst.ready = true →
        inst.bindable = true →
        resolveParameters env.secrets b.parameters b.parametersFrom = .ok bag →
        (reconcileBindingCreate env b).bindCall = some bag)
    ∧ resolveParameters bindSecrets (some inlineParams)
        [⟨"secret-name", "secret-key"⟩] = .ok mergedParams := by
  refine ⟨fun _ => rfl, ?_, ?_, ?_, ?_, ?_, rfl⟩
  · intro bag r rs fields h; simp [resolveFrom, h]
  · intro bag r rs e h; simp [resolveFrom, h]
  · intro base k v k'; exact lookupStr_setKey base k k' v
  · intro base add k h; exact lookupStr_mergeObj_of_not_mem base add k h
  · intro env b inst bag h1 h2 h3 h4
    simp [reconcileBindingCreate, h1, h2, h3, h4]

/-- Witness for C3: with the test secret store, a ready bindable instance
and the test's inline parameters, the Bind call carries exactly the
expected merged bag. -/
theorem parameter_resolution_witness :
    (reconcileBindingCreate ⟨fun _ => some ⟨true, true⟩, bindSecrets⟩
        ⟨"test-instance", some inlineParams, [⟨"secret-name", "secret-key"⟩]⟩).bindCall
      = some mergedParams :=
  (parameter_resolution bindSecrets).2.2.2.2.2.1
    ⟨fun _ => some ⟨true, true⟩, bindSecrets⟩
    ⟨"test-instance", some inlineParams, [⟨"secret-name", "secret-key"⟩]⟩
    ⟨true, true⟩ mergedParams rfl rfl rfl rfl

/-- Claim C4: `params=nil, paramsFrom=[]` resolves to the empty bag (not
an error); a reference to a key holding the empty JSON object adds no
keys; a missing secret, an empty secret data map, a missing key and
malformed JSON are each resolution errors; and any resolution error makes
the reconciliation pass set Ready=False with Reason=ErrorWithParameters,
terminally for the generation (no timed requeue) and with no Bind call. -/
theorem parameter_resolution_errors (secrets : String → Option SecretData) :
    (resolveParameters secrets none [] = .ok [])
    ∧ (∀ bag (r : SecretKeyReference) data, secrets r.name = some data → data ≠ [] →
        lookupStr data r.key = some "\x7b\x7d" →
        resolveFrom secrets bag [r] = .ok bag)
    ∧ (∀ r : SecretKeyReference, secrets r.name = none →
        fetchSecretKeyParams secrets r = .error (.missingSecret r.name))
    ∧ (∀ r : SecretKeyReference, secrets r.name = some [] →
        fetchSecretKeyParams secrets r = .error (.emptySecretData r.name))
    ∧ (∀ (r : SecretKeyReference) data, secrets r.name = some data → data ≠ [] →
        lookupStr data r.key = none →
        fetchSecretKeyParams secrets r = .error (.missingKey r.name r.key))
    ∧ (∀ (r : SecretKeyReference) data raw, secrets r.name = some data → data ≠ [] →
        lookupStr data r.key = some raw → parseJSONObject raw = none →
        fetchSecretKeyParams secrets r = .error (.malformedJSON r.name r.key))
    ∧ (∀ (env : BindEnv) (b : BindingSpec) (inst : InstanceInfo) e,
        env.instances b.instanceRef = some inst → inst.ready = true →
        inst.bindable = true →
        resolveParameters env.secrets b.parameters b.parametersFrom = .error e →
        reconcileBindingCreate env b
          = ⟨.condFalse, "ErrorWithParameters", false, true, none⟩) := by
  refine ⟨rfl, ?_, ?_, ?_, ?_, ?_, ?_⟩
  · intro bag r data h1 h2 h3
    have hparse : parseJSONObject "\x7b\x7d" = some ([] : List (String × JSON)) := rfl
    have : fetchSecretKeyParams secrets r = .ok [] := by
      simp [fetchSecretKeyParams, h1, h2, h3, hparse, List.isEmpty_eq_true]
    simp [resolveFrom, this, mergeObj]
  · intro r h; simp [fetchSecretKeyParams, h]
  · intro r h; simp [fetchSecretKeyParams, h]
  · intro r data h1 h2 h3
    simp [fetchSecretKeyParams, h1, h2, h3, List.isEmpty_eq_true]
  · intro r data raw h1 h2 h3 h4
    simp [fetchSecretKeyParams, h1, h2, h3, h4, List.isEmpty_eq_true]
  · intro env b inst e h1 h2 h3 h4
    simp [reconcileBindingCreate, h1, h2, h3, h4]

/-- Witness for C4: concretely, the empty resolution yields the empty bag;
a key holding the empty object adds nothing; and a binding referencing a
secret whose key holds malformed JSON (`bad`, as in the excerpt's test)
ends the pass with Ready=False/ErrorWithParameters, no requeue, terminal,
and no Bind call. -/
theorem parameter_resolution_errors_witness :
    resolveParameters (fun _ => none) none [] = .ok []
    ∧ resolveFrom (fun _ => some [("secret-key", "\x7b\x7d")]) inlineParams
        [⟨"secret-name", "secret-key"⟩] = .ok inlineParams
    ∧ reconcileBindingCreate
        ⟨fun _ => some ⟨true, true⟩,
         fun n => if n = "secret-name" then some [("secret-key", "bad")] else none⟩
        ⟨"test-instance", none, [⟨"secret-name", "secret-key"⟩]⟩
      = ⟨.condFalse, "ErrorWithParameters", false, true, none⟩ :=
  ⟨(parameter_resolution_errors (fun _ => none)).1,
   (parameter_resolution_errors (fun _ => some [("secret-key", "\x7b\x7d")])).2.1
      inlineParams ⟨"secret-name", "secret-key"⟩ [("secret-key", "\x7b\x7d")]
      rfl (by decide) rfl,
   (parameter_resolution_errors
      (fun n => if n = "secret-name" then some [("secret-key", "bad")] else none)).2.2.2.2.2.2
      ⟨fun _ => some ⟨true, true⟩,
       fun n => if n = "secret-name" then some [("secret-key", "bad")] else none⟩
      ⟨"test-instance", none, [⟨"secret-name", "secret-key"⟩]⟩
      ⟨true, true⟩ (.malformedJSON "secret-name" "secret-key")
      rfl rfl rfl rfl⟩

/-- What `removeKeyFn` does to lookups: the removed key is gone, every
other key is untouched. -/
theorem lookupStr_removeKeyFn (m : SecretData) (k k' : String) :
    lookupStr (removeKeyFn m k) k' = if k = k' then none else lookupStr m k' := by
  induction m with
  | nil => simp [removeKeyFn, lookupStr]
  | cons p rest ih =>
    obtain ⟨k2, v2⟩ := p
    by_cases h1 : k2 = k <;> by_cases h2 : k2 = k' <;> by_cases h3 : k = k' <;>
      simp_all [removeKeyFn, lookupStr]

/-- Removing an absent key is a no-op. -/
theorem removeKeyFn_of_lookup_none (m : SecretData) (k : String)
    (h : lookupStr m k = none) : removeKeyFn m k = m := by
  induction m with
  | nil => rfl
  | cons p rest ih =>
    obtain ⟨k2, v2⟩ := p
    by_cases hk : k2 = k
    · rw [lookupStr, if_pos hk] at h; cases h
    · have h' : lookupStr rest k = none := by rwa [lookupStr, if_neg hk] at h
      have hrec : removeKeyFn rest k = rest := ih h'
      have hb : ((k2, v2).1 != k) = true := by simp [hk]
      simp only [removeKeyFn] at hrec ⊢
      rw [List.filter_cons, if_pos hb, hrec]

/-- The broker credential payload of the transform test (the secret the
no-transform case persists verbatim). -/
def scenarioCreds : SecretData := [("foo", "bar"), ("baz", "zap")]

/-- The secret store of the transform test: one other secret with one
key. -/
def otherSecretEnv : String → Option SecretData :=
  fun n => if n = "other-secret" then some [("key-from-other-secret", "qux")] else none

/-- The `multiple transforms` list of the excerpt's test, in order:
AddKey(string literal), AddKey(byte literal), AddKey(JSONPath on the
broker response), RenameKey(foo→bar), AddKeysFrom(other-secret),
RemoveKey(baz). -/
def scenarioTransforms : List SecretTransform :=
  [.addKey ⟨"addedStringValue", none, some "stringValue", none⟩,
   .addKey ⟨"addedByteArray", some "byteArray", none, none⟩,
   .addKey ⟨"valueFromJSONPath", none, none, some "\x7b.foo\x7d"⟩,
   .renameKey ⟨"foo", "bar"⟩,
   .addKeysFrom ⟨some ⟨"some-namespace", "other-secret"⟩⟩,
   .removeKey ⟨"baz"⟩]

/-- The exact secret data the test expects after the pipeline: `foo`
renamed away, `baz` removed, the three added keys and the merged one. -/
def scenarioExpected : SecretData :=
  [("addedStringValue", "stringValue"), ("addedByteArray", "byteArray"),
   ("valueFromJSONPath", "bar"), ("bar", "bar"), ("key-from-other-secret", "qux")]

/-- Claim C2: transforms apply strictly in list order with each mutation
visible to the next; AddKey inserts/overwrites from a literal byte value,
a literal string, or a JSONPath expression evaluated against the original
broker credential document (not the working payload); RenameKey copies
from→to and removes from, a no-op when from is absent; RemoveKey deletes a
present key, a no-op otherwise; AddKeysFrom merges another secret's keys
with incoming values overwriting, its fetch failure failing the pipeline;
and the excerpt's `multiple transforms` scenario yields exactly the
documented merged key set. -/
theorem secret_transform_pipeline
    (secrets : String → Option SecretData) (creds p : SecretData) :
    (∀ t ts, applyTransforms secrets creds (t :: ts) p
        = match applyTransform secrets creds p t with
          | none => none
          | some p2 => applyTransforms secrets creds ts p2)
    ∧ (∀ k v, applyTransform secrets creds p (.addKey ⟨k, some v, none, none⟩)
        = some (setKey p k v))
    ∧ (∀ k s, applyTransform secrets creds p (.addKey ⟨k, none, some s, none⟩)
        = some (setKey p k s))
    ∧ (∀ k expr v, evalJSONPath creds expr = some v →
        applyTransform secrets creds p (.addKey ⟨k, none, none, some expr⟩)
          = some (setKey p k v))
    ∧ (∀ src dst v, lookupStr p src = some v →
        applyTransform secrets creds p (.renameKey ⟨src, dst⟩)
          = some (removeKeyFn (setKey p dst v) src))
    ∧ (∀ src dst, lookupStr p src = none →
        applyTransform secrets creds p (.renameKey ⟨src, dst⟩) = some p)
    ∧ (∀ k, applyTransform secrets creds p (.removeKey ⟨k⟩) = some (removeKeyFn p k))
    ∧ (∀ k, lookupStr p k = none → removeKeyFn p k = p)
    ∧ (∀ (m : SecretData) k v k',
        lookupStr (setKey m k v) k' = if k = k' then some v else lookupStr m k')
    ∧ (∀ (m : SecretData) k k',
        lookupStr (removeKeyFn m k) k' = if k = k' then none else lookupStr m k')
    ∧ (∀ (r : ObjectReference) other, secrets r.name = some other →
        applyTransform secrets creds p (.addKeysFrom ⟨some r⟩) = some (mergeObj p other))
    ∧ (∀ r : ObjectReference, secrets r.name = none →
        applyTransform secrets creds p (.addKeysFrom ⟨some r⟩) = none)
    ∧ applyTransforms otherSecretEnv scenarioCreds scenarioTransforms scenarioCreds
        = some scenarioExpected := by
  refine ⟨fun _ _ => rfl, fun _ _ => rfl, fun _ _ => rfl, ?_, ?_, ?_,
    fun _ => rfl, removeKeyFn_of_lookup_none p, ?_, lookupStr_removeKeyFn, ?_, ?_, rfl⟩
  · intro k expr v h; simp [applyTransform, h]
  · intro src dst v h; simp [applyTransform, h]
  · intro src dst h; simp [applyTransform, h]
  · intro m k v k'; exact lookupStr_setKey m k k' v
  · intro r other h; simp [applyTransform, h]
  · intro r h; simp [applyTransform, h]

/-- Witness for C2: in the concrete scenario, the JSONPath AddKey reads
`foo` from the original credentials, and RenameKey(foo→bar) copies and
removes. -/
theorem secret_transform_pipeline_witness :
    applyTransform otherSecretEnv scenarioCreds scenarioCreds
        (.addKey ⟨"valueFromJSONPath", none, none, some "\x7b.foo\x7d"⟩)
      = some (setKey scenarioCreds "valueFromJSONPath" "bar")
    ∧ applyTransform otherSecretEnv scenarioCreds scenarioCreds
        (.renameKey ⟨"foo", "bar"⟩)
      = some (removeKeyFn (setKey scenarioCreds "bar" "bar") "foo") :=
  ⟨(secret_transform_pipeline otherSecretEnv scenarioCreds scenarioCreds).2.2.2.1
      "valueFromJSONPath" "\x7b.foo\x7d" "bar" rfl,
   (secret_transform_pipeline otherSecretEnv scenarioCreds scenarioCreds).2.2.2.2.1
      "foo" "bar" "bar" rfl⟩

/-- The broker of the async-unbind test: the first Unbind is accepted
asynchronously; once a poll has failed, Unbind is handled synchronously. -/
def brokerAsyncThenSync : Nat → UnbindResp := fun k => if k = 0 then .okAsync else .ok

/-- The poller of the async-unbind test: every poll reports `failed`. -/
def pollAlwaysFailed : Nat → PollResp := fun _ => .failed

/-- Claim C5: a `failed` poll on an asynchronous Unbind is never surfaced
as a terminal failure — the state machine re-issues Unbind — and in the
test's environment (async acceptance, failed poll, then synchronous
success) the binding reaches Removed after 2 Unbind calls and stays
there. -/
theorem async_unbind_poll_failed_retries
    (broker : Nat → UnbindResp) (poll : Nat → PollResp) (k : Nat)
    (h : poll k = .failed) :
    unbindStep broker poll (.pollingUnbind k) = .unbinding k
    ∧ (∀ n, unbindRun brokerAsyncThenSync pollAlwaysFailed (n + 3) (.unbinding 0)
        = .removed 2) := by
  constructor
  · simp [unbindStep, h]
  · intro n
    have hstep : unbindRun brokerAsyncThenSync pollAlwaysFailed (n + 3) (.unbinding 0)
        = unbindRun brokerAsyncThenSync pollAlwaysFailed n (.removed 2) := rfl
    rw [hstep, unbindRun_removed]

/-- Witness for C5: a failed poll after one async-accepted Unbind call
re-enters the unbinding state, and three scheduler steps reach Removed. -/
theorem async_unbind_poll_failed_retries_witness :
    unbindStep brokerAsyncThenSync pollAlwaysFailed (.pollingUnbind 1) = .unbinding 1
    ∧ unbindRun brokerAsyncThenSync pollAlwaysFailed 3 (.unbinding 0) = .removed 2 := by
  refine ⟨(async_unbind_poll_failed_retries brokerAsyncThenSync pollAlwaysFailed 1 rfl).1, ?_⟩
  have := (async_unbind_poll_failed_retries brokerAsyncThenSync pollAlwaysFailed 1 rfl).2 0
  simpa using this

/-- The broker of the unbind-retry test: HTTP 500 on the first two Unbind
calls, success on the third. -/
def brokerFailTwice : Nat → UnbindResp := fun k => if k < 2 then .err500 else .ok

/-- A poller that never resolves (unused by the synchronous retry path). -/
def pollNever : Nat → PollResp := fun _ => .inProgress

/-- Claim C6: an HTTP 500 from Unbind is retried with backoff rather than
terminal, and with two 500s followed by success the binding reaches
Removed with the broker observing exactly 3 Unbind calls — and no further
calls ever after. -/
theorem unbind_500_retried_three_calls
    (broker : Nat → UnbindResp) (poll : Nat → PollResp) (k : Nat)
    (h : broker k = .err500) :
    unbindStep broker poll (.unbinding k) = .unbinding (k + 1)
    ∧ (∀ n, unbindRun brokerFailTwice pollNever (n + 3) (.unbinding 0)
        = .removed 3) := by
  constructor
  · simp [unbindStep, h]
  · intro n
    have hstep : unbindRun brokerFailTwice pollNever (n + 3) (.unbinding 0)
        = unbindRun brokerFailTwice pollNever n (.removed 3) := rfl
    rw [hstep, unbindRun_removed]

/-- Witness for C6: the first 500 re-enters unbinding, and three steps of
the fail-twice broker reach Removed with exactly 3 calls recorded. -/
theorem unbind_500_retried_three_calls_witness :
    unbindStep brokerFailTwice pollNever (.unbinding 0) = .unbinding 1
    ∧ unbindRun brokerFailTwice pollNever 3 (.unbinding 0) = .removed 3 := by
  refine ⟨(unbind_500_retried_three_calls brokerFailTwice pollNever 0 rfl).1, ?_⟩
  have := (unbind_500_retried_three_calls brokerFailTwice pollNever 0 rfl).2 0
  simpa using this

end Controller
